import Mathlib

/-!
Shallow embedding of the slack-support-agent repository's core:
the assistance orchestrator (`src/ai_support.py`) and the thread
fetcher (`src/slack_service.py`), together with the prompt lookup
(`src/prompts.py`).  External effects (network calls, the prompt
files loaded from disk) are modelled as explicit oracle parameters;
Python exceptions are modelled with `Except`; Python `Optional[str]`
is `Option String`, and Python truthiness on strings is made explicit.
-/

namespace SupportAgent

/-! ## Python string primitives

`str.strip`, `str.lower`, `str.splitlines`, `str.rstrip` and slicing
are modelled over the character list of the string (code points, as
in Python).  Whitespace is the ASCII whitespace set; `lower` is
ASCII lowering; `splitlines` splits on `\n` — the repository's
strings make no use of the exotic Unicode cases. -/

/-- The characters Python's default `str.strip()` removes (ASCII). -/
def isPySpace (c : Char) : Bool :=
  c == ' ' || c == '\t' || c == '\n' || c == '\r' || c == '\u000b' || c == '\u000c'

/-- Python `s.strip()`. -/
def pyStrip (s : String) : String :=
  ⟨((s.data.dropWhile isPySpace).reverse.dropWhile isPySpace).reverse⟩

/-- ASCII lowering of one character. -/
def charLower (c : Char) : Char :=
  if 65 ≤ c.toNat && c.toNat ≤ 90 then Char.ofNat (c.toNat + 32) else c

/-- Python `s.lower()`. -/
def pyLower (s : String) : String := ⟨s.data.map charLower⟩

/-- Python `s.rstrip(c)` for a single character. -/
def pyRstrip (s : String) (c : Char) : String :=
  ⟨(s.data.reverse.dropWhile (· == c)).reverse⟩

/-- Python `s[:n]` (slicing counts code points). -/
def pyTake (s : String) (n : Nat) : String := ⟨s.data.take n⟩

/-- Helper for `pySplitLines`. -/
def splitLinesAux : List Char → List Char → List String
  | [], [] => []
  | [], cur => [⟨cur.reverse⟩]
  | c :: cs, cur =>
    if c == '\n' then ⟨cur.reverse⟩ :: splitLinesAux cs []
    else splitLinesAux cs (c :: cur)

/-- Python `s.splitlines()` (newline-separated, no trailing empty
piece, `"" ↦ []`). -/
def pySplitLines (s : String) : List String := splitLinesAux s.data []

/-- Python `sep.join(xs)`. -/
def pyJoin (sep : String) : List String → String
  | [] => ""
  | [x] => x
  | x :: xs => x ++ sep ++ pyJoin sep xs

/-- Python `a or b` where `a : Optional[str]` and `b : str`:
returns `b` when `a` is `None` or the empty string. -/
def orStr (a : Option String) (b : String) : String :=
  match a with
  | some s => if s.isEmpty then b else s
  | none => b

/-- Python `a or b` where both operands are `Optional[str]`:
returns `b` (whatever it is) when `a` is falsy (`None` or `""`). -/
def pyOrOpt (a b : Option String) : Option String :=
  match a with
  | some s => if s.isEmpty then b else some s
  | none => b

/-- Truthiness of an `Optional[str]` cursor: `if not cursor` in Python. -/
def truthy (c : Option String) : Bool :=
  match c with
  | some s => !s.isEmpty
  | none => false

/-! ## Data model: `SlackMessage` (`slack_service.py`, `@dataclass SlackMessage`) -/

structure SlackMessage where
  channel_id : String
  channel_name : String
  user_id : String
  user_name : String
  text : String
  ts : String
  permalink : Option String := none
  thread_ts : Option String := none
  deriving Repr, DecidableEq

/-- A raw message record from the thread-listing API
(`conversations_replies`), with exactly the keys
`_to_thread_message` / `_resolve_thread_user_name` read.
An absent key is `none`. `bot_profile_name` stands for
`message.get("bot_profile", {}).get("name")`. -/
structure RawThreadMessage where
  text : Option String := none
  user : Option String := none
  bot_id : Option String := none
  username : Option String := none
  bot_profile_name : Option String := none
  ts : Option String := none
  thread_ts : Option String := none
  deriving Repr, DecidableEq

/-- A raw record from the message-search API, with exactly the keys
`_to_message` / `_channel_name` / `_resolve_match_user_name` read.
`channel_id`/`channel_name` stand for `match["channel"]["id"/"name"]`. -/
structure RawMatch where
  channel_id : Option String := none
  channel_name : Option String := none
  user : Option String := none
  username : Option String := none
  text : Option String := none
  ts : Option String := none
  timestamp : Option String := none
  permalink : Option String := none
  thread_ts : Option String := none
  deriving Repr, DecidableEq

/-- `SlackService._resolve_thread_user_name`. -/
def resolve_thread_user_name (message : RawThreadMessage) (user_id : String) : String :=
  orStr (pyOrOpt message.username message.bot_profile_name) user_id

/-- `SlackService._to_thread_message`: maps one raw thread record to a
`SlackMessage`, or to `none` when the stripped text is empty. -/
def to_thread_message (message : RawThreadMessage) (channel_id channel_name : String) :
    Option SlackMessage :=
  let text := pyStrip (orStr message.text "")
  if text.isEmpty then none
  else
    let user_id := orStr (pyOrOpt message.user message.bot_id) "unknown"
    let user_name := resolve_thread_user_name message user_id
    let ts := orStr message.ts "0"
    some { channel_id := channel_id, channel_name := channel_name,
           user_id := user_id, user_name := user_name, text := text, ts := ts,
           permalink := none, thread_ts := some (orStr message.thread_ts ts) }

/-- `SlackService._channel_name`. -/
def channel_name_of (channel_id : String) (channel_name : Option String) : String :=
  orStr channel_name channel_id

/-- `SlackService._resolve_match_user_name`. -/
def resolve_match_user_name (m : RawMatch) (user_id : String) : String :=
  orStr m.username user_id

/-- `SlackService._to_message`: maps one raw search match to a
`SlackMessage`, or to `none` when channel id, user id or stripped
text is missing/empty. -/
def to_message (m : RawMatch) : Option SlackMessage :=
  let channel_id := orStr m.channel_id ""
  if channel_id.isEmpty then none
  else
    let user_id := orStr m.user ""
    let text := pyStrip (orStr m.text "")
    if user_id.isEmpty || text.isEmpty then none
    else
      some { channel_id := channel_id,
             channel_name := channel_name_of channel_id m.channel_name,
             user_id := user_id,
             user_name := resolve_match_user_name m user_id,
             text := text,
             ts := orStr (pyOrOpt m.ts m.timestamp) "0",
             permalink := m.permalink,
             thread_ts := pyOrOpt (pyOrOpt m.thread_ts m.ts) m.timestamp }

/-! ## Thread fetching (`fetch_thread_messages`) -/

/-- One page of a `conversations_replies` response: the raw message
list (`resp.get("messages", []) or []`) and the continuation cursor
(`resp.get("response_metadata", {}).get("next_cursor")`). -/
structure Page where
  messages : List RawThreadMessage
  next_cursor : Option String := none
  deriving Repr

/-- The thread-listing API as an oracle: channel id, thread root
timestamp and cursor determine either a `SlackApiError` (payload the
exception text) or a page. -/
def ThreadApi := String → String → Option String → Except String Page

/-- The `while True` pagination loop of `fetch_thread_messages`,
with explicit fuel (`none` when the fuel runs out before the loop
exits) and a log of the cursors requested, one per API call. -/
def fetch_go (api : ThreadApi) (channel_id thread_ts channel_name : String)
    (cursor : Option String) (acc : List SlackMessage) (log : List (Option String)) :
    Nat → Option (Except String (List SlackMessage) × List (Option String))
  | 0 => none
  | fuel + 1 =>
    let log := log ++ [cursor]
    match api channel_id thread_ts cursor with
    | .error e => some (.error ("スレッド取得に失敗しました: " ++ e), log)
    | .ok page =>
      let acc := acc ++ page.messages.filterMap
        (fun m => to_thread_message m channel_id channel_name)
      if truthy page.next_cursor then
        fetch_go api channel_id thread_ts channel_name page.next_cursor acc log fuel
      else
        some (.ok acc, log)

/-- `SlackService.fetch_thread_messages`: follows pagination cursors
starting from no cursor; a `SlackApiError` on any page is re-raised
as a `RuntimeError` (the `.error` case), discarding everything. -/
def fetch_thread_messages (api : ThreadApi)
    (channel_id thread_ts channel_name : String) (fuel : Nat) :
    Option (Except String (List SlackMessage) × List (Option String)) :=
  fetch_go api channel_id thread_ts channel_name none [] [] fuel

/-! ## Configuration (`config.py`, the fields the orchestrator reads) -/

structure OpenAIConfig where
  api_key : String
  model : String
  deriving Repr, DecidableEq

structure OllamaConfig where
  base_url : String
  model : String
  deriving Repr, DecidableEq

structure AppConfig where
  openai : OpenAIConfig
  ollama : OllamaConfig
  ai_provider : String
  deriving Repr, DecidableEq

/-! ## Prompts (`prompts.py`) -/

/-- The prompt cache loaded from disk (`_load_prompts`): each present
key maps to the (already stripped) file contents. -/
def PromptTable := String → Option String

/-- `prompts._get_prompt`: raises `FileNotFoundError` when the key is
absent from the cache, else returns the stripped text. -/
def get_prompt (prompts : PromptTable) (key : String) : Except String String :=
  match prompts key with
  | none => .error ("prompt file not found for key: " ++ key)
  | some s => .ok (pyStrip s)

/-- `prompts.instruction_for`. -/
def instruction_for (prompts : PromptTable) (mode : String) : Except String String :=
  get_prompt prompts mode

/-- `prompts.system_prompt`. -/
def system_prompt_of (prompts : PromptTable) : Except String String :=
  get_prompt prompts "system"

/-! ## Orchestrator (`ai_support.py`) -/

/-- `@dataclass SupportResult`. -/
structure SupportResult where
  content : String
  model : String
  deriving Repr, DecidableEq

/-- One chat message of the two-message prompt. -/
structure ChatMsg where
  role : String
  content : String
  deriving Repr, DecidableEq

/-- `_build_user_prompt`. -/
def build_user_prompt (instruction context text : String) : String :=
  instruction ++ "\n\n[コンテキスト]\n" ++ context ++ "\n\n[メッセージ]\n" ++ text

/-- `_build_messages`; calls `system_prompt()`, which can raise. -/
def build_messages (prompts : PromptTable) (instruction context text : String) :
    Except String (List ChatMsg) :=
  match system_prompt_of prompts with
  | .error e => .error e
  | .ok sys => .ok [⟨"system", sys⟩, ⟨"user", build_user_prompt instruction context text⟩]

/-- The result of `client.responses.create`: `.error` models the
call raising; `output_text = none` models `hasattr(response,
"output_text")` being false. -/
structure OpenAIResponse where
  output_text : Option String
  deriving Repr

/-- Outcome of the ollama HTTP round trip and content extraction.
Non-raising outcomes: transport failure (`URLError`/`HTTPError`/
`TimeoutError`, caught), a UTF-8 body that is not JSON
(`JSONDecodeError`, caught), a JSON body that is not a dict (content
stays empty), or a dict whose `"message"` key is absent or a dict —
carrying the optional string values of `message.content` and the
top-level `response` field.  Raising outcomes, which escape the
function because only the classes above are caught: a body that is
not valid UTF-8 (`body.decode` raises `UnicodeDecodeError` outside
the `JSONDecodeError`-only handler), a dict whose `"message"` key
holds a non-dict value such as `null` (`.get("content")` raises
`AttributeError`), and any other uncaught exception of the round
trip or extraction (e.g. `AttributeError` from `.strip()` on a
non-string content value), with its description as payload. -/
inductive OllamaAnswer where
  | transportErr
  | badJson
  | notDict
  | dict (message_content : Option String) (response_field : Option String)
  | notUtf8
  | messageNotDict
  | otherRaise (e : String)
  deriving Repr

/-- Whether an ollama round-trip outcome makes `_generate_with_ollama`
raise instead of returning. -/
def OllamaAnswer.raises : OllamaAnswer → Bool
  | .notUtf8 => true
  | .messageNotDict => true
  | .otherRaise _ => true
  | _ => false

/-- A network call issued by a backend, as recorded for inspection:
the model name sent and the message list sent. -/
inductive NetCall where
  | openaiReq (model : String) (messages : List ChatMsg)
  | ollamaReq (url : String) (model : String) (messages : List ChatMsg)
  deriving Repr, DecidableEq

/-- The message list a recorded network call carried. -/
def NetCall.messages : NetCall → List ChatMsg
  | .openaiReq _ ms => ms
  | .ollamaReq _ _ ms => ms

/-- The external world the orchestrator touches: the prompt cache,
whether `from openai import OpenAI` succeeds, and the two backends'
answers to a request. -/
structure Env where
  prompts : PromptTable
  openai_importable : Bool
  openaiAnswer : String → List ChatMsg → Except Unit OpenAIResponse
  ollamaAnswer : String → String → List ChatMsg → OllamaAnswer

/-- `_openai_available`. -/
def openai_available (config : AppConfig) : Bool :=
  !config.openai.api_key.isEmpty

/-- `_ollama_available`. -/
def ollama_available (config : AppConfig) : Bool :=
  !config.ollama.model.isEmpty

/-- `_resolve_provider` (present in the source but never called by
`generate_support`). -/
def resolve_provider (value : String) : String :=
  let provider := pyLower (pyStrip value)
  if provider == "openai" || provider == "ollama" then provider else "auto"

/-- `_generate_with_openai`.  Returns the optional result paired with
the network calls issued; `.error` models an uncaught exception
(`instruction_for` / `system_prompt` raising `FileNotFoundError`). -/
def generate_with_openai (env : Env) (text mode context : String) (config : AppConfig) :
    Except String (Option SupportResult) × List NetCall :=
  if !env.openai_importable then (.ok none, [])
  else if config.openai.api_key.isEmpty then (.ok none, [])
  else
    match instruction_for env.prompts mode with
    | .error e => (.error e, [])
    | .ok instruction =>
      match build_messages env.prompts instruction context text with
      | .error e => (.error e, [])
      | .ok messages =>
        let model := orStr (some config.openai.model) "gpt-4o-mini"
        let call := NetCall.openaiReq model messages
        match env.openaiAnswer model messages with
        | .error _ => (.ok none, [call])
        | .ok response =>
          let content := match response.output_text with
            | some t => pyStrip t
            | none => ""
          if content.isEmpty then (.ok none, [call])
          else (.ok (some ⟨content, "openai"⟩), [call])

/-- The URL `_generate_with_ollama` posts to:
`(config.ollama.base_url or "http://localhost:11434").rstrip("/")`
followed by `/api/chat`. -/
def ollamaUrl (config : AppConfig) : String :=
  pyRstrip (orStr (some config.ollama.base_url) "http://localhost:11434") '/'
    ++ "/api/chat"

/-- Python `urllib`'s scheme check on a URL (`splittype`): the URL
has a type iff it starts with one or more characters other than `/`
and `:` followed by `:`.  `urllib.request.Request` raises
`ValueError("unknown url type: ...")` at construction — outside the
`try` that only wraps `urlopen` — when it does not. -/
def urlHasType (url : String) : Bool :=
  let pre := url.data.takeWhile (fun c => !(c == '/') && !(c == ':'))
  !pre.isEmpty && ((url.data.drop pre.length).head? == some ':')

/-- `_generate_with_ollama`, same conventions as
`generate_with_openai`: `.error` models an uncaught exception
(`FileNotFoundError` from the prompt lookup, `ValueError` from
`Request` on a scheme-less URL, or a raising round-trip outcome).
Note the source checks `if not content` before calling `.strip()`
on it. -/
def generate_with_ollama (env : Env) (text mode context : String) (config : AppConfig) :
    Except String (Option SupportResult) × List NetCall :=
  let model := config.ollama.model
  if model.isEmpty then (.ok none, [])
  else
    match instruction_for env.prompts mode with
    | .error e => (.error e, [])
    | .ok instruction =>
      match build_messages env.prompts instruction context text with
      | .error e => (.error e, [])
      | .ok messages =>
        let url := ollamaUrl config
        if !urlHasType url then (.error ("unknown url type: " ++ url), [])
        else
          let call := NetCall.ollamaReq url model messages
          match env.ollamaAnswer url model messages with
          | .transportErr => (.ok none, [call])
          | .badJson => (.ok none, [call])
          | .notDict => (.ok none, [call])
          | .dict message_content response_field =>
            let content := orStr (pyOrOpt message_content response_field) ""
            if content.isEmpty then (.ok none, [call])
            else (.ok (some ⟨pyStrip content, "ollama"⟩), [call])
          | .notUtf8 =>
            (.error "UnicodeDecodeError: response body is not valid utf-8", [call])
          | .messageNotDict =>
            (.error "AttributeError: the message value has no attribute get", [call])
          | .otherRaise e => (.error e, [call])

/-- `_simple_summary`. -/
def simple_summary (text : String) : String :=
  let lines := ((pySplitLines text).map pyStrip).filter (fun l => !l.isEmpty)
  match lines with
  | [] => "内容が空のため要約できません。"
  | [l] => "要点: " ++ pyTake l 120
  | _ => "要点: " ++ pyTake (pyJoin " / " (lines.take 2)) 180

/-- `_simple_reply` (ignores its argument). -/
def simple_reply (text : String) : String :=
  "返信案:\n" ++
  "ありがとうございます。内容を確認しました。\n" ++
  "必要であれば詳細や期限を共有いただけますか？\n" ++
  "こちらで対応方針を整理して返答します。"

/-- `_simple_todo` (ignores its argument). -/
def simple_todo (text : String) : String :=
  "TODO:\n" ++
  "- 依頼内容の要点を整理する\n" ++
  "- 期限・優先度を確認する\n" ++
  "- 必要な情報や担当者を洗い出す\n" ++
  "- 返信ドラフトを作成する"

/-- `_fallback_support` (its `context` argument is unused, as in the
source). -/
def fallback_support (text mode context : String) : SupportResult :=
  if mode == "summary" then ⟨simple_summary text, "fallback"⟩
  else if mode == "todo" then ⟨simple_todo text, "fallback"⟩
  else ⟨simple_reply text, "fallback"⟩

/-- `generate_support`: lower-cases the mode, defaults the context,
tries the configured provider when its prerequisite holds, and falls
back to the local templated generation.  `.error` models an uncaught
exception escaping to the caller. -/
def generate_support (env : Env) (config : AppConfig) (text mode : String)
    (context : Option String := none) :
    Except String SupportResult × List NetCall :=
  let context := orStr context ""
  let mode := pyLower mode
  if config.ai_provider == "openai" && openai_available config then
    match generate_with_openai env text mode context config with
    | (.error e, calls) => (.error e, calls)
    | (.ok (some r), calls) => (.ok r, calls)
    | (.ok none, calls) =>
      if config.ai_provider == "ollama" && ollama_available config then
        match generate_with_ollama env text mode context config with
        | (.error e, calls2) => (.error e, calls ++ calls2)
        | (.ok (some r), calls2) => (.ok r, calls ++ calls2)
        | (.ok none, calls2) => (.ok (fallback_support text mode context), calls ++ calls2)
      else (.ok (fallback_support text mode context), calls)
  else if config.ai_provider == "ollama" && ollama_available config then
    match generate_with_ollama env text mode context config with
    | (.error e, calls) => (.error e, calls)
    | (.ok (some r), calls) => (.ok r, calls)
    | (.ok none, calls) => (.ok (fallback_support text mode context), calls)
  else (.ok (fallback_support text mode context), [])

/-! ## Shared fixtures for concrete scenarios -/

/-- A prompt cache holding the `system` and `reply` files only. -/
def prompts0 : PromptTable := fun k =>
  if k == "system" then some "SYS" else if k == "reply" then some "INSTR" else none

/-- An empty prompt cache (no prompt file is present). -/
def promptsNone : PromptTable := fun _ => none

/-- An environment whose openai backend answers `" OUT "` and whose
ollama backend answers a body whose `message.content` is one space. -/
def env0 : Env where
  prompts := prompts0
  openai_importable := true
  openaiAnswer := fun _ _ => .ok ⟨some " OUT "⟩
  ollamaAnswer := fun _ _ _ => .dict (some " ") none

/-- Like `env0` but with no prompt files on disk. -/
def envNoPrompts : Env where
  prompts := promptsNone
  openai_importable := true
  openaiAnswer := fun _ _ => .ok ⟨some " OUT "⟩
  ollamaAnswer := fun _ _ _ => .dict (some " ") none

/-- Fully-populated configuration with the unrecognized provider
selector `"auto"` (the default `config.py` produces). -/
def cfgAuto : AppConfig := ⟨⟨"k", "m"⟩, ⟨"http://x/", "om"⟩, "auto"⟩

/-- Provider `"ollama"` with a model configured. -/
def cfgOllama : AppConfig := ⟨⟨"", ""⟩, ⟨"http://x/", "om"⟩, "ollama"⟩

/-- Provider `"openai"` with an empty API key. -/
def cfgOpenaiNoKey : AppConfig := ⟨⟨"", "m"⟩, ⟨"", ""⟩, "openai"⟩

/-- Provider `"openai"` with an API key configured. -/
def cfgOpenai : AppConfig := ⟨⟨"k", ""⟩, ⟨"", ""⟩, "openai"⟩

/-- Two-page thread API: page 1 has two messages and cursor `"X"`,
page 2 one bot message and no cursor. -/
def api2 : ThreadApi := fun _ _ c =>
  match c with
  | none => .ok ⟨[⟨some "m1", some "u1", none, none, none, some "1", none⟩,
                  ⟨some "m2", some "u2", none, none, none, some "2", none⟩], some "X"⟩
  | some "X" => .ok ⟨[⟨some "m3", none, some "B5", none, some "bot", some "3", none⟩], none⟩
  | some _ => .error "bad"

/-- Like `api2` but the second page fails with a `SlackApiError`. -/
def api2err : ThreadApi := fun _ _ c =>
  match c with
  | none => .ok ⟨[⟨some "m1", some "u1", none, none, none, some "1", none⟩,
                  ⟨some "m2", some "u2", none, none, none, some "2", none⟩], some "X"⟩
  | some _ => .error "boom"

/-! ## Helper lemmas -/

theorem String.mk_append (a b : List Char) :
    (String.mk a ++ String.mk b) = String.mk (a ++ b) := rfl

theorem append_ne_empty_of_left (s t : String) (h : s ≠ "") : s ++ t ≠ "" := by
  intro he
  apply h
  cases s with
  | mk d =>
    cases t with
    | mk d2 =>
      rw [String.mk_append] at he
      have hd : d ++ d2 = [] := congrArg String.data he
      rcases List.append_eq_nil.mp hd with ⟨h1, _⟩
      rw [h1]

theorem ne_empty_of_isEmpty_false (s : String) (h : s.isEmpty = false) : s ≠ "" := by
  intro he
  rw [he] at h
  exact absurd h (by decide)

theorem orStr_ne_empty (a : Option String) (b : String) (hb : b ≠ "") :
    orStr a b ≠ "" := by
  unfold orStr
  match a with
  | none => exact hb
  | some s =>
    by_cases hs : s.isEmpty
    · simp [hs, hb]
    · simp [hs]
      exact ne_empty_of_isEmpty_false s (by simp [hs])

theorem simple_summary_ne_empty (text : String) : simple_summary text ≠ "" := by
  simp only [simple_summary]
  split
  · decide
  · exact append_ne_empty_of_left _ _ (by decide)
  · exact append_ne_empty_of_left _ _ (by decide)

theorem simple_reply_ne_empty (text : String) : simple_reply text ≠ "" := by
  unfold simple_reply
  exact append_ne_empty_of_left _ _ (by decide)

theorem simple_todo_ne_empty (text : String) : simple_todo text ≠ "" := by
  unfold simple_todo
  exact append_ne_empty_of_left _ _ (by decide)

theorem fallback_content_ne_empty (text mode context : String) :
    (fallback_support text mode context).content ≠ "" := by
  unfold fallback_support
  split
  · exact simple_summary_ne_empty text
  · split
    · exact simple_todo_ne_empty text
    · exact simple_reply_ne_empty text

theorem generate_with_openai_ok (env : Env) (text mode context : String) (cfg : AppConfig)
    (hm : (env.prompts mode).isSome) (hs : (env.prompts "system").isSome) :
    ∃ o calls, generate_with_openai env text mode context cfg = (.ok o, calls) := by
  obtain ⟨i, hi⟩ := Option.isSome_iff_exists.mp hm
  obtain ⟨s, hsv⟩ := Option.isSome_iff_exists.mp hs
  simp only [generate_with_openai, instruction_for, system_prompt_of, get_prompt,
    build_messages, hi, hsv]
  repeat' split
  all_goals exact ⟨_, _, rfl⟩

theorem generate_with_ollama_ok (env : Env) (text mode context : String) (cfg : AppConfig)
    (hm : (env.prompts mode).isSome) (hs : (env.prompts "system").isSome)
    (hurl : urlHasType (ollamaUrl cfg) = true)
    (hans : ∀ ms, (env.ollamaAnswer (ollamaUrl cfg) cfg.ollama.model ms).raises = false) :
    ∃ o calls, generate_with_ollama env text mode context cfg = (.ok o, calls) := by
  obtain ⟨i, hi⟩ := Option.isSome_iff_exists.mp hm
  obtain ⟨s, hsv⟩ := Option.isSome_iff_exists.mp hs
  have hans2 : ∀ ms a, env.ollamaAnswer (ollamaUrl cfg) cfg.ollama.model ms = a →
      a.raises = false := fun ms a ha => ha ▸ hans ms
  simp only [generate_with_ollama, instruction_for, system_prompt_of, get_prompt,
    build_messages, hi, hsv, hurl, Bool.not_true, Bool.false_eq_true, if_false]
  repeat' split
  all_goals first
    | exact ⟨_, _, rfl⟩
    | (rename_i heq
       exact absurd (hans2 _ _ heq) (by simp [OllamaAnswer.raises]))

theorem generate_with_openai_some (env : Env) (text mode context : String) (cfg : AppConfig)
    (r : SupportResult)
    (h : (generate_with_openai env text mode context cfg).fst = .ok (some r)) :
    r.model = "openai" ∧ r.content ≠ "" := by
  simp only [generate_with_openai] at h
  split at h
  · exact absurd h (by simp)
  · split at h
    · exact absurd h (by simp)
    · split at h
      · exact absurd h (by simp)
      · split at h
        · exact absurd h (by simp)
        · split at h
          · exact absurd h (by simp)
          · split at h
            · exact absurd h (by simp)
            · rename_i hempty
              simp only [Except.ok.injEq, Option.some.injEq] at h
              rw [← h]
              refine ⟨rfl, ne_empty_of_isEmpty_false _ ?_⟩
              first
                | exact hempty
                | exact Bool.eq_false_iff.mpr hempty

theorem generate_with_ollama_some (env : Env) (text mode context : String) (cfg : AppConfig)
    (r : SupportResult)
    (h : (generate_with_ollama env text mode context cfg).fst = .ok (some r)) :
    r.model = "ollama" := by
  simp only [generate_with_ollama] at h
  repeat' split at h
  all_goals simp at h
  all_goals rw [← h]

theorem build_messages_ok (prompts : PromptTable) (instruction context text : String)
    (ms : List ChatMsg) (h : build_messages prompts instruction context text = .ok ms) :
    ∃ s, system_prompt_of prompts = .ok s ∧
      ms = [⟨"system", s⟩, ⟨"user", build_user_prompt instruction context text⟩] := by
  unfold build_messages at h
  split at h
  · exact absurd h (by simp)
  · rename_i sys heq
    simp only [Except.ok.injEq] at h
    exact ⟨sys, heq, h.symm⟩

theorem generate_with_openai_calls (env : Env) (text mode context : String) (cfg : AppConfig)
    (call : NetCall) (h : call ∈ (generate_with_openai env text mode context cfg).snd) :
    ∃ i s, instruction_for env.prompts mode = .ok i ∧
      system_prompt_of env.prompts = .ok s ∧
      call.messages = [⟨"system", s⟩, ⟨"user", build_user_prompt i context text⟩] := by
  simp only [generate_with_openai] at h
  repeat' split at h
  all_goals simp at h
  all_goals (
    subst h
    have hb := build_messages_ok env.prompts _ context text _ (by assumption)
    obtain ⟨s, hs, hms⟩ := hb
    exact ⟨_, s, by assumption, hs, by simp [NetCall.messages, hms]⟩)

theorem generate_with_ollama_calls (env : Env) (text mode context : String) (cfg : AppConfig)
    (call : NetCall) (h : call ∈ (generate_with_ollama env text mode context cfg).snd) :
    ∃ i s, instruction_for env.prompts mode = .ok i ∧
      system_prompt_of env.prompts = .ok s ∧
      call.messages = [⟨"system", s⟩, ⟨"user", build_user_prompt i context text⟩] := by
  simp only [generate_with_ollama] at h
  repeat' split at h
  all_goals simp at h
  all_goals (
    subst h
    have hb := build_messages_ok env.prompts _ context text _ (by assumption)
    obtain ⟨s, hs, hms⟩ := hb
    exact ⟨_, s, by assumption, hs, by simp [NetCall.messages, hms]⟩)

theorem generate_support_ok_origin (env : Env) (cfg : AppConfig) (text mode : String)
    (ctx : Option String) (r : SupportResult)
    (h : (generate_support env cfg text mode ctx).fst = .ok r) :
    (generate_with_openai env text (pyLower mode) (orStr ctx "") cfg).fst = .ok (some r) ∨
    (generate_with_ollama env text (pyLower mode) (orStr ctx "") cfg).fst = .ok (some r) ∨
    r = fallback_support text (pyLower mode) (orStr ctx "") := by
  simp only [generate_support] at h
  repeat' split at h
  all_goals simp at h
  all_goals first
    | exact Or.inr (Or.inr h.symm)
    | exact Or.inr (Or.inr h)
    | (refine Or.inl ?_
       rw [show generate_with_openai env text (pyLower mode) (orStr ctx "") cfg = _ from
         by assumption]
       simp [h]
       done)
    | (refine Or.inr (Or.inl ?_)
       rw [show generate_with_ollama env text (pyLower mode) (orStr ctx "") cfg = _ from
         by assumption]
       simp [h]
       done)

theorem generate_support_calls_origin (env : Env) (cfg : AppConfig) (text mode : String)
    (ctx : Option String) (call : NetCall)
    (h : call ∈ (generate_support env cfg text mode ctx).snd) :
    call ∈ (generate_with_openai env text (pyLower mode) (orStr ctx "") cfg).snd ∨
    call ∈ (generate_with_ollama env text (pyLower mode) (orStr ctx "") cfg).snd := by
  simp only [generate_support] at h
  repeat' split at h
  all_goals try simp only [List.mem_append] at h
  all_goals try exact absurd h (List.not_mem_nil call)
  all_goals first
    | (refine Or.inl ?_
       rw [show generate_with_openai env text (pyLower mode) (orStr ctx "") cfg = _ from
         by assumption]
       exact h)
    | (refine Or.inr ?_
       rw [show generate_with_ollama env text (pyLower mode) (orStr ctx "") cfg = _ from
         by assumption]
       exact h)
    | (rcases h with h1 | h2
       · refine Or.inl ?_
         rw [show generate_with_openai env text (pyLower mode) (orStr ctx "") cfg = _ from
           by assumption]
         exact h1
       · refine Or.inr ?_
         rw [show generate_with_ollama env text (pyLower mode) (orStr ctx "") cfg = _ from
           by assumption]
         exact h2)

theorem generate_support_error_origin (env : Env) (cfg : AppConfig) (text mode : String)
    (ctx : Option String) (e : String)
    (h : (generate_support env cfg text mode ctx).fst = .error e) :
    (generate_with_openai env text (pyLower mode) (orStr ctx "") cfg).fst = .error e ∨
    (generate_with_ollama env text (pyLower mode) (orStr ctx "") cfg).fst = .error e := by
  simp only [generate_support] at h
  repeat' split at h
  all_goals simp at h
  all_goals first
    | (refine Or.inl ?_
       rw [show generate_with_openai env text (pyLower mode) (orStr ctx "") cfg = _ from
         by assumption]
       simp [h]
       done)
    | (refine Or.inr ?_
       rw [show generate_with_ollama env text (pyLower mode) (orStr ctx "") cfg = _ from
         by assumption]
       simp [h]
       done)

/-! ## Claim C1 -/

/-- Claim C1, counterexample: `generate_support` does raise to its
caller.  With the `openai` provider configured and usable but the
prompt file for the requested mode missing, `instruction_for` raises
`FileNotFoundError` outside any try/except and the exception escapes
`generate_support`. -/
theorem generate_support_raises_for_missing_prompt :
    (generate_support envNoPrompts cfgOpenai "hello" "reply" none).fst
      = .error "prompt file not found for key: reply" := rfl

/-- Claim C1, amended: `generate_support` can raise to its caller —
`FileNotFoundError` when a backend is invoked and the mode's or the
system prompt file is missing, and, on the ollama path even with all
prompts present, `ValueError` from `Request` when the configured
base URL composes to a scheme-less URL, `UnicodeDecodeError` when
the response body is not valid UTF-8, and `AttributeError` when the
JSON body's `"message"` key holds a non-dict value.  Outside these
conditions — prompt files present, URL carrying a scheme, and the
ollama round trip yielding a non-raising outcome — every failure
path (configuration, precondition, transport, parse, empty content)
ends in a returned `SupportResult` (tagged `"fallback"`, `"openai"`
or `"ollama"`; no `error` tag exists), not a propagated
exception. -/
theorem generate_support_no_raise_when_prompts_present
    (env : Env) (cfg : AppConfig) (text mode : String) (ctx : Option String)
    (hm : (env.prompts (pyLower mode)).isSome) (hs : (env.prompts "system").isSome)
    (hurl : urlHasType (ollamaUrl cfg) = true)
    (hans : ∀ ms, (env.ollamaAnswer (ollamaUrl cfg) cfg.ollama.model ms).raises = false) :
    ∃ r, (generate_support env cfg text mode ctx).fst = .ok r := by
  cases hres : (generate_support env cfg text mode ctx).fst with
  | ok r => exact ⟨r, rfl⟩
  | error e =>
    rcases generate_support_error_origin env cfg text mode ctx e hres with h | h
    · obtain ⟨o, c, hoe⟩ :=
        generate_with_openai_ok env text (pyLower mode) (orStr ctx "") cfg hm hs
      rw [hoe] at h
      exact absurd h (by simp)
    · obtain ⟨o, c, hoe⟩ :=
        generate_with_ollama_ok env text (pyLower mode) (orStr ctx "") cfg hm hs hurl hans
      rw [hoe] at h
      exact absurd h (by simp)

/-- Witness for the amended C1 at a concrete input. -/
theorem generate_support_no_raise_when_prompts_present_witness :
    ∃ r, (generate_support env0 cfgAuto "hi" "reply" none).fst = .ok r :=
  generate_support_no_raise_when_prompts_present env0 cfgAuto "hi" "reply" none rfl rfl
    rfl (fun _ => rfl)

/-! ## Claim C2 -/

/-- Claim C2, counterexample: with the unrecognized provider selector
`"auto"`, `generate_support` does not return a result tagged
`"error"` carrying "no valid backend configured"; it returns the
local fallback reply draft tagged `"fallback"` (though indeed with
zero network calls). -/
theorem generate_support_auto_provider_not_error :
    generate_support env0 cfgAuto "hello" "reply" none
      = (.ok ⟨simple_reply "hello", "fallback"⟩, []) ∧ ("fallback" : String) ≠ "error" :=
  ⟨rfl, by decide⟩

/-- Claim C2, amended: for every provider-selector value whose
trimmed, lower-cased form is neither `"openai"` nor `"ollama"`,
`generate_support` attempts no backend — zero network calls — and
returns the deterministic local fallback result tagged
`"fallback"` (not an `"error"` tag, and no "no valid backend
configured" diagnostic exists in the code). -/
theorem generate_support_unrecognized_provider_fallback
    (env : Env) (cfg : AppConfig) (text mode : String) (ctx : Option String)
    (h1 : pyLower (pyStrip cfg.ai_provider) ≠ "openai")
    (h2 : pyLower (pyStrip cfg.ai_provider) ≠ "ollama") :
    generate_support env cfg text mode ctx
      = (.ok (fallback_support text (pyLower mode) (orStr ctx "")), []) := by
  have hp1 : cfg.ai_provider ≠ "openai" := fun he => h1 (by rw [he]; decide)
  have hp2 : cfg.ai_provider ≠ "ollama" := fun he => h2 (by rw [he]; decide)
  have hb1 : (cfg.ai_provider == "openai") = false := by
    simp [beq_eq_false_iff_ne, hp1]
  have hb2 : (cfg.ai_provider == "ollama") = false := by
    simp [beq_eq_false_iff_ne, hp2]
  simp [generate_support, hb1, hb2]

/-- Witness for the amended C2 at a concrete input. -/
theorem generate_support_unrecognized_provider_fallback_witness :
    generate_support env0 cfgAuto "hello" "reply" none
      = (.ok (fallback_support "hello" (pyLower "reply") (orStr none "")), []) :=
  generate_support_unrecognized_provider_fallback env0 cfgAuto "hello" "reply" none
    (by decide) (by decide)

/-! ## Claim C3 -/

/-- Claim C3, counterexample: with provider `"openai"` selected and an
empty API key, `generate_support` does not return an error result
carrying a precondition diagnostic; it returns the local fallback
reply draft tagged `"fallback"` (though indeed without a network
call). -/
theorem generate_support_missing_key_not_error :
    generate_support env0 cfgOpenaiNoKey "hello" "reply" none
      = (.ok ⟨simple_reply "hello", "fallback"⟩, []) ∧ ("fallback" : String) ≠ "error" :=
  ⟨rfl, by decide⟩

/-- Claim C3, amended: when the selected backend's prerequisite is
missing (empty API credential for `"openai"`, empty model identifier
for `"ollama"`), the backend fails locally — zero network calls —
and `generate_support` returns the local fallback result tagged
`"fallback"`; no precondition diagnostic text appears. -/
theorem generate_support_missing_prereq_fallback
    (env : Env) (cfg : AppConfig) (text mode : String) (ctx : Option String)
    (h : (cfg.ai_provider = "openai" ∧ cfg.openai.api_key = "") ∨
         (cfg.ai_provider = "ollama" ∧ cfg.ollama.model = "")) :
    generate_support env cfg text mode ctx
      = (.ok (fallback_support text (pyLower mode) (orStr ctx "")), []) := by
  rcases h with ⟨hp, hk⟩ | ⟨hp, hk⟩
  · have hav : openai_available cfg = false := by unfold openai_available; rw [hk]; decide
    have hb2 : (cfg.ai_provider == "ollama") = false := by rw [hp]; rfl
    simp [generate_support, hav, hb2]
  · have hav : ollama_available cfg = false := by unfold ollama_available; rw [hk]; decide
    have hb1 : (cfg.ai_provider == "openai") = false := by rw [hp]; rfl
    simp [generate_support, hav, hb1]

/-- Witness for the amended C3 at a concrete input. -/
theorem generate_support_missing_prereq_fallback_witness :
    generate_support env0 cfgOpenaiNoKey "hello" "reply" none
      = (.ok (fallback_support "hello" (pyLower "reply") (orStr none "")), []) :=
  generate_support_missing_prereq_fallback env0 cfgOpenaiNoKey "hello" "reply" none
    (Or.inl ⟨rfl, rfl⟩)

/-! ## Claim C4 -/

/-- Claim C4, counterexample: the ollama path tests the extracted
content for emptiness before stripping it, so a whitespace-only
`message.content` yields a success tagged `"ollama"` whose `content`
is the empty string — an empty success, not a failure. -/
theorem generate_support_empty_content_success :
    (generate_support env0 cfgOllama "hello" "reply" none).fst
      = .ok ⟨"", "ollama"⟩ := rfl

/-- Claim C4, amended: the openai path strips before testing, so an
openai success carries non-empty content, and fallback results carry
non-empty content; only the ollama path (which tests the raw content
before stripping) can return a result whose content is empty after
stripping.  Hence every returned result not tagged `"ollama"` has
non-empty content. -/
theorem generate_support_content_nonempty_unless_ollama
    (env : Env) (cfg : AppConfig) (text mode : String) (ctx : Option String)
    (r : SupportResult) (h : (generate_support env cfg text mode ctx).fst = .ok r)
    (hm : r.model ≠ "ollama") : r.content ≠ "" := by
  rcases generate_support_ok_origin env cfg text mode ctx r h with h1 | h1 | h1
  · exact (generate_with_openai_some _ _ _ _ _ _ h1).2
  · exact absurd (generate_with_ollama_some _ _ _ _ _ _ h1) hm
  · rw [h1]
    exact fallback_content_ne_empty _ _ _

/-- Witness for the amended C4 at a concrete input. -/
theorem generate_support_content_nonempty_unless_ollama_witness :
    (generate_support env0 cfgAuto "hi" "reply" none).fst
        = .ok ⟨simple_reply "hi", "fallback"⟩ ∧
      ("fallback" : String) ≠ "ollama" ∧ simple_reply "hi" ≠ "" :=
  ⟨rfl, by decide,
    generate_support_content_nonempty_unless_ollama env0 cfgAuto "hi" "reply" none
      ⟨simple_reply "hi", "fallback"⟩ rfl (by decide)⟩

/-! ## Claim C5 -/

theorem isEmpty_false_of_ne (s : String) (h : s ≠ "") : s.isEmpty = false := by
  cases hc : s.isEmpty
  · rfl
  · exact absurd ((String.isEmpty_iff s).mp hc) h

/-- One unfolding step of the pagination loop. -/
theorem fetch_go_succ (api : ThreadApi) (cid ts cname : String) (cursor : Option String)
    (acc : List SlackMessage) (log : List (Option String)) (fuel : Nat) :
    fetch_go api cid ts cname cursor acc log (fuel + 1)
      = match api cid ts cursor with
        | .error e => some (.error ("スレッド取得に失敗しました: " ++ e), log ++ [cursor])
        | .ok page =>
          let acc2 := acc ++ page.messages.filterMap
            (fun m => to_thread_message m cid cname)
          if truthy page.next_cursor then
            fetch_go api cid ts cname page.next_cursor acc2 (log ++ [cursor]) fuel
          else some (.ok acc2, log ++ [cursor]) := rfl

/-- A single cursorless page with one mapped message. -/
def page1 : Page := ⟨[⟨some "hello", some "u1", none, none, none, some "5", none⟩], none⟩

/-- An API that always serves `page1`. -/
def api1 : ThreadApi := fun _ _ _ => .ok page1

/-- Claim C5: the thread fetch starts with no cursor, appends each
page's mapped messages preserving per-page order and page order
without re-sorting, and terminates exactly when a page carries no
continuation cursor.  First conjunct: a cursorless page is returned
after exactly one fetch call (the call log is `[none]`).  Second
conjunct: the two-page scenario (2 messages and cursor `"X"`, then 1
message and no cursor) yields the 3 messages in page order with
exactly the two calls `[none, some "X"]`. -/
theorem fetch_thread_pagination :
    (∀ (api : ThreadApi) (cid ts cname : String) (page : Page),
       api cid ts none = .ok page → truthy page.next_cursor = false →
       fetch_thread_messages api cid ts cname 1
         = some (.ok (page.messages.filterMap fun m => to_thread_message m cid cname),
                 [none])) ∧
    fetch_thread_messages api2 "C1" "1" "gen" 2
      = some (.ok [⟨"C1", "gen", "u1", "u1", "m1", "1", none, some "1"⟩,
                   ⟨"C1", "gen", "u2", "u2", "m2", "2", none, some "2"⟩,
                   ⟨"C1", "gen", "B5", "bot", "m3", "3", none, some "3"⟩],
              [none, some "X"]) := by
  constructor
  · intro api cid ts cname page hapi hcur
    unfold fetch_thread_messages
    rw [show (1 : Nat) = 0 + 1 from rfl, fetch_go_succ, hapi]
    simp [hcur]
  · rfl

/-- Witness for C5's universally quantified conjunct at a concrete
single-page API. -/
theorem fetch_thread_pagination_witness :
    fetch_thread_messages api1 "C9" "7" "nm" 1
      = some (.ok (page1.messages.filterMap fun m => to_thread_message m "C9" "nm"),
              [none]) :=
  fetch_thread_pagination.1 api1 "C9" "7" "nm" page1 rfl rfl

/-! ## Claim C6 -/

/-- The first page served by `api2err` (and by `api2`). -/
def pageA : Page := ⟨[⟨some "m1", some "u1", none, none, none, some "1", none⟩,
                      ⟨some "m2", some "u2", none, none, none, some "2", none⟩], some "X"⟩

/-- Claim C6: a remote error on any page aborts the whole fetch and
raises the retrieval failure, discarding earlier pages' messages —
the caller never observes a partial thread — while a thread with
zero messages is a valid empty success.  First conjunct: in a
two-page fetch whose second page request errors, the result is the
raised `RuntimeError` alone (page 1's messages appear nowhere in
it).  Second conjunct: one cursorless page with no messages yields
the empty successful result.  Third conjunct: the concrete two-page
scenario with `"boom"` on page 2. -/
theorem fetch_thread_error_aborts :
    (∀ (api : ThreadApi) (cid ts cname : String) (p1 : Page) (c e : String),
       api cid ts none = .ok p1 → p1.next_cursor = some c → c ≠ "" →
       api cid ts (some c) = .error e →
       fetch_thread_messages api cid ts cname 2
         = some (.error ("スレッド取得に失敗しました: " ++ e), [none, some c])) ∧
    (∀ (api : ThreadApi) (cid ts cname : String),
       api cid ts none = .ok ⟨[], none⟩ →
       fetch_thread_messages api cid ts cname 1 = some (.ok [], [none])) ∧
    fetch_thread_messages api2err "C1" "1" "gen" 2
      = some (.error "スレッド取得に失敗しました: boom", [none, some "X"]) := by
  refine ⟨?_, ?_, rfl⟩
  · intro api cid ts cname p1 c e h1 hc hcne h2
    have ht : truthy (some c) = true := by
      show (!c.isEmpty) = true
      rw [isEmpty_false_of_ne c hcne]
      rfl
    unfold fetch_thread_messages
    rw [show (2 : Nat) = 1 + 1 from rfl, fetch_go_succ, h1]
    simp only [hc, ht, List.nil_append, if_true]
    rw [show (1 : Nat) = 0 + 1 from rfl, fetch_go_succ, h2]
    rfl
  · intro api cid ts cname h
    unfold fetch_thread_messages
    rw [show (1 : Nat) = 0 + 1 from rfl, fetch_go_succ, h]
    simp [truthy]

/-- Witness for C6's quantified conjuncts at the concrete erroring
API. -/
theorem fetch_thread_error_aborts_witness :
    fetch_thread_messages api2err "C2" "9" "nm" 2
      = some (.error ("スレッド取得に失敗しました: " ++ "boom"), [none, some "X"]) :=
  fetch_thread_error_aborts.1 api2err "C2" "9" "nm" pageA "X" "boom" rfl rfl
    (by decide) rfl

/-! ## Claim C7 -/

theorem orStr_of_falsy (a : Option String) (b : String) (h : truthy a = false) :
    orStr a b = b := by
  match a with
  | none => rfl
  | some s =>
    have hs : s.isEmpty = true := by
      have hb : (!s.isEmpty) = false := h
      simpa using hb
    simp [orStr, hs]

theorem pyOrOpt_of_falsy (a b : Option String) (h : truthy a = false) :
    pyOrOpt a b = b := by
  match a with
  | none => rfl
  | some s =>
    have hs : s.isEmpty = true := by
      have hb : (!s.isEmpty) = false := h
      simpa using hb
    simp [pyOrOpt, hs]

/-- Claim C7: the mapping functions never build a partial record.
First conjunct: a `SlackMessage` produced by `_to_message` has
non-empty text, channel id and user id.  Second conjunct: likewise
for `_to_thread_message` (whose channel id is the fetch argument).
Third conjunct: in thread mapping a falsy `user` falls back to
`bot_id` or the literal `"unknown"`, and a falsy `thread_ts`
defaults to the message's own `ts`.  Fourth conjunct: the empty-text
raw message is dropped entirely — `[{text: ""}, {text: "hi", user:
"u1"}]` maps to exactly one record. -/
theorem mapping_never_partial :
    (∀ (m : RawMatch) (msg : SlackMessage), to_message m = some msg →
       msg.text ≠ "" ∧ msg.channel_id ≠ "" ∧ msg.user_id ≠ "") ∧
    (∀ (raw : RawThreadMessage) (cid cname : String) (msg : SlackMessage),
       cid ≠ "" → to_thread_message raw cid cname = some msg →
       msg.text ≠ "" ∧ msg.channel_id ≠ "" ∧ msg.user_id ≠ "") ∧
    (∀ (raw : RawThreadMessage) (cid cname : String) (msg : SlackMessage),
       to_thread_message raw cid cname = some msg →
       (truthy raw.user = false → msg.user_id = orStr raw.bot_id "unknown") ∧
       (truthy raw.thread_ts = false → msg.thread_ts = some msg.ts)) ∧
    ([(⟨some "", none, none, none, none, none, none⟩ : RawThreadMessage),
      ⟨some "hi", some "u1", none, none, none, none, none⟩].filterMap
        (fun m => to_thread_message m "C" "n")).length = 1 := by
  refine ⟨?_, ?_, ?_, rfl⟩
  · intro m msg h
    simp only [to_message] at h
    split at h
    · simp at h
    · split at h
      · simp at h
      · rename_i hch hut
        simp only [Option.some.injEq] at h
        subst h
        refine ⟨?_, ?_, ?_⟩
        · apply ne_empty_of_isEmpty_false
          cases hx : (pyStrip (orStr m.text "")).isEmpty
          · rfl
          · simp [hx] at hut
        · apply ne_empty_of_isEmpty_false
          cases hx : (orStr m.channel_id "").isEmpty
          · rfl
          · simp [hx] at hch
        · apply ne_empty_of_isEmpty_false
          cases hx : (orStr m.user "").isEmpty
          · rfl
          · simp [hx] at hut
  · intro raw cid cname msg hcid h
    simp only [to_thread_message] at h
    split at h
    · simp at h
    · rename_i htext
      simp only [Option.some.injEq] at h
      subst h
      refine ⟨?_, hcid, ?_⟩
      · apply ne_empty_of_isEmpty_false
        cases hx : (pyStrip (orStr raw.text "")).isEmpty
        · rfl
        · simp [hx] at htext
      · show orStr (pyOrOpt raw.user raw.bot_id) "unknown" ≠ ""
        exact orStr_ne_empty _ _ (by decide)
  · intro raw cid cname msg h
    simp only [to_thread_message] at h
    split at h
    · simp at h
    · simp only [Option.some.injEq] at h
      subst h
      constructor
      · intro hu
        show orStr (pyOrOpt raw.user raw.bot_id) "unknown" = orStr raw.bot_id "unknown"
        rw [pyOrOpt_of_falsy raw.user raw.bot_id hu]
      · intro ht
        show some (orStr raw.thread_ts (orStr raw.ts "0")) = some (orStr raw.ts "0")
        rw [orStr_of_falsy raw.thread_ts _ ht]

/-- A raw thread record with text and user only. -/
def rawHi : RawThreadMessage := ⟨some "hi", some "u1", none, none, none, none, none⟩

/-- The record `rawHi` maps to. -/
def msgHi : SlackMessage := ⟨"C", "n", "u1", "u1", "hi", "0", none, some "0"⟩

/-- Witness for C7's quantified conjuncts at a concrete record. -/
theorem mapping_never_partial_witness :
    ("C" : String) ≠ "" ∧ to_thread_message rawHi "C" "n" = some msgHi ∧
      (msgHi.text ≠ "" ∧ msgHi.channel_id ≠ "" ∧ msgHi.user_id ≠ "") :=
  ⟨by decide, rfl, mapping_never_partial.2.1 rawHi "C" "n" msgHi (by decide) rfl⟩

/-! ## Claim C8 -/

/-- Claim C8: every generation request that reaches a backend sends
exactly a two-message prompt: the fixed system instruction, then one
user message composed of the mode-specific instruction, the labeled
context section with the supplied context (possibly empty), and the
labeled message section with the supplied text, in that fixed
order. -/
theorem backend_prompt_two_messages (env : Env) (cfg : AppConfig) (text mode : String)
    (ctx : Option String) (call : NetCall)
    (h : call ∈ (generate_support env cfg text mode ctx).snd) :
    ∃ i s, instruction_for env.prompts (pyLower mode) = .ok i ∧
      system_prompt_of env.prompts = .ok s ∧
      call.messages = [⟨"system", s⟩,
        ⟨"user", build_user_prompt i (orStr ctx "") text⟩] := by
  rcases generate_support_calls_origin env cfg text mode ctx call h with h1 | h1
  · exact generate_with_openai_calls env text (pyLower mode) (orStr ctx "") cfg call h1
  · exact generate_with_ollama_calls env text (pyLower mode) (orStr ctx "") cfg call h1

/-- The network call `generate_support env0 cfgOpenai "hi" "Reply"`
issues. -/
def callOpenai0 : NetCall :=
  .openaiReq "gpt-4o-mini" [⟨"system", "SYS"⟩, ⟨"user", build_user_prompt "INSTR" "" "hi"⟩]

/-- Witness for C8 at a concrete request that reaches the openai
backend. -/
theorem backend_prompt_two_messages_witness :
    ∃ i s, instruction_for env0.prompts (pyLower "Reply") = .ok i ∧
      system_prompt_of env0.prompts = .ok s ∧
      callOpenai0.messages
        = [⟨"system", s⟩, ⟨"user", build_user_prompt i (orStr none "") "hi"⟩] :=
  backend_prompt_two_messages env0 cfgOpenai "hi" "Reply" none callOpenai0 (by decide)

/-! ## Claim C9 -/

theorem to_thread_message_channel (raw : RawThreadMessage) (cid cname : String)
    (msg : SlackMessage) (h : to_thread_message raw cid cname = some msg) :
    msg.channel_id = cid ∧ msg.channel_name = cname := by
  simp only [to_thread_message] at h
  split at h
  · simp at h
  · simp only [Option.some.injEq] at h
    subst h
    exact ⟨rfl, rfl⟩

theorem fetch_go_channel (api : ThreadApi) (cid ts cname : String) :
    ∀ (fuel : Nat) (cursor : Option String) (acc : List SlackMessage)
      (log : List (Option String)) (res : List SlackMessage)
      (log2 : List (Option String)),
      (∀ m ∈ acc, m.channel_id = cid ∧ m.channel_name = cname) →
      fetch_go api cid ts cname cursor acc log fuel = some (.ok res, log2) →
      ∀ m ∈ res, m.channel_id = cid ∧ m.channel_name = cname := by
  intro fuel
  induction fuel with
  | zero =>
    intro cursor acc log res log2 hacc h
    simp [fetch_go] at h
  | succ n ih =>
    intro cursor acc log res log2 hacc h
    rw [fetch_go_succ] at h
    split at h
    · simp at h
    · rename_i page heq
      dsimp only at h
      have hacc2 : ∀ m ∈ acc ++ page.messages.filterMap
          (fun mm => to_thread_message mm cid cname),
          m.channel_id = cid ∧ m.channel_name = cname := by
        intro m hm
        rcases List.mem_append.mp hm with h1 | h2
        · exact hacc m h1
        · obtain ⟨raw, _, hmap⟩ := List.mem_filterMap.mp h2
          exact to_thread_message_channel raw cid cname m hmap
      split at h
      · exact ih _ _ _ _ _ hacc2 h
      · simp only [Option.some.injEq, Prod.mk.injEq, Except.ok.injEq] at h
        exact h.1 ▸ hacc2

/-- Claim C9: every message returned by `fetch_thread_messages`
carries exactly the `channel_id` and `channel_name` passed as
arguments to the call, whatever channel data the raw records held. -/
theorem fetch_messages_carry_call_channel (api : ThreadApi) (cid ts cname : String)
    (fuel : Nat) (res : List SlackMessage) (log : List (Option String))
    (h : fetch_thread_messages api cid ts cname fuel = some (.ok res, log)) :
    ∀ m ∈ res, m.channel_id = cid ∧ m.channel_name = cname :=
  fetch_go_channel api cid ts cname fuel none [] [] res log
    (fun m hm => absurd hm (List.not_mem_nil m)) h

/-- First message of the `api2` two-page scenario. -/
def msgA : SlackMessage := ⟨"C1", "gen", "u1", "u1", "m1", "1", none, some "1"⟩

/-- All three messages of the `api2` two-page scenario. -/
def threadMsgs : List SlackMessage :=
  [msgA, ⟨"C1", "gen", "u2", "u2", "m2", "2", none, some "2"⟩,
   ⟨"C1", "gen", "B5", "bot", "m3", "3", none, some "3"⟩]

/-- Witness for C9 at the concrete two-page fetch. -/
theorem fetch_messages_carry_call_channel_witness :
    msgA.channel_id = "C1" ∧ msgA.channel_name = "gen" :=
  fetch_messages_carry_call_channel api2 "C1" "1" "gen" 2 threadMsgs
    [none, some "X"] rfl msgA (by decide)

/-! ## Claim C10 -/

/-- Claim C10: on the local fallback path, for mode `"todo"` and for
every mode other than `"summary"` and `"todo"` (the canned reply
draft), the produced content is a fixed constant: it is identical
for any two pairs of inputs, i.e. independent of text and context. -/
theorem fallback_constant_for_non_summary (t1 c1 t2 c2 mode : String)
    (h : mode ≠ "summary") :
    (fallback_support t1 mode c1).content = (fallback_support t2 mode c2).content := by
  have hb : (mode == "summary") = false := by simp [beq_eq_false_iff_ne, h]
  simp only [fallback_support, hb]
  by_cases ht : (mode == "todo") = true
  · simp [ht, simple_todo]
  · have hb2 : (mode == "todo") = false := by
      cases hx : (mode == "todo")
      · rfl
      · exact absurd hx ht
    simp [hb2, simple_reply]

/-- Witness for C10 at concrete inputs in mode `"todo"`. -/
theorem fallback_constant_for_non_summary_witness :
    (fallback_support "a" "todo" "b").content = (fallback_support "x" "todo" "y").content :=
  fallback_constant_for_non_summary "a" "b" "x" "y" "todo" (by decide)

end SupportAgent
